import Mathlib

/-!
Verification of the message-routing service of the `adapter` repository
(`pkg/message/service.go`) and its relying-party DAO (`pkg/db/relying_parties.go`),
embedded shallowly in Lean 4.

External collaborators (VDR registry, DID-exchange client, mediator, storage
provider, SQL database, DID parser) are modelled as oracles: records of
`Except`-valued results supplied to the handlers, exactly at the call sites the
Go source uses them. Side-effecting collaborator calls made by the registration
handler are recorded in an explicit event trace so that "no connection call
occurred" is a statement about the trace.
-/

namespace Adapter

/-- Go errors, as propagated through `fmt.Errorf("...%w", err)` wrapping.
`isNotFound` models `errors.Is(err, storage.ErrDataNotFound)` and
`isDuplicateStore` models `errors.Is(err, storage.ErrDuplicateStore)`;
wrapping with `%w` preserves both, as `errors.Is` unwraps. -/
structure GoErr where
  msg : String
  isNotFound : Bool := false
  isDuplicateStore : Bool := false
  deriving Repr, DecidableEq

/-- `fmt.Errorf(p + "%w", e)`: prepends context, preserves the error classes. -/
def wrapErr (p : String) (e : GoErr) : GoErr :=
  { e with msg := p ++ e.msg }

/-- `errors.New(s)`: a fresh error with no class. -/
def newErr (s : String) : GoErr :=
  { msg := s }

/-- Message type constants from `service.go`. -/
def msgTypeBaseURI : String := "https://trustbloc.dev/blinded-routing/1.0"

/-- `diddoc-req` message type. -/
def didDocReq : String := msgTypeBaseURI ++ "/diddoc-req"

/-- `diddoc-resp` message type. -/
def didDocResp : String := msgTypeBaseURI ++ "/diddoc-resp"

/-- `register-route-req` message type. -/
def registerRouteReq : String := msgTypeBaseURI ++ "/register-route-req"

/-- `register-route-resp` message type. -/
def registerRouteResp : String := msgTypeBaseURI ++ "/register-route-resp"

/-- A DID document as returned by `vdriRegistry.Create`. `id` is the document
identifier (`newDidDoc.ID`); `jsonBytes` is the result of the
`newDidDoc.JSONBytes()` call, which may fail. Document bytes are modelled as
an opaque `String`. -/
structure DIDDoc where
  id : String
  jsonBytes : Except GoErr String
  deriving Repr

/-- The transient transaction store (`o.tStore`), an in-memory keyed store:
`Put` prepends, `Get` finds the most recent entry (last-write-wins overwrite
semantics of the underlying map store). -/
def Store := List (String × String)

/-- `tStore.Put(k, v)`. -/
def storePut (st : Store) (k v : String) : Store :=
  (k, v) :: st

/-- `tStore.Get(k)`: the most recently put value, or a NotFound-class error
(`storage.ErrDataNotFound`) when the key is absent. -/
def storeGet (st : Store) (k : String) : Except GoErr String :=
  match st.find? (fun kv => kv.1 == k) with
  | some kv => .ok kv.2
  | none => .error { msg := "data not found", isNotFound := true }

/-- `ConnReq.Data`: the nested payload of a registration request.
`didDoc = none` models a nil `DIDDoc` field. -/
structure ConnReqData where
  didDoc : Option String
  deriving Repr, DecidableEq

/-- `ConnReq`: the decoded registration-request payload. `data = none`
models a nil `Data` field. -/
structure ConnReq where
  data : Option ConnReqData
  deriving Repr, DecidableEq

/-- An inbound DIDComm message as observed by the service: its declared type,
id, parent thread id, and the result of `msg.Decode(&ConnReq{})`. -/
structure Msg where
  type : String
  id : String
  parentThreadID : String
  decodeConnReq : Except GoErr ConnReq
  deriving Repr

/-- Outbound reply payloads: `DIDDocResp`, `ConnResp` (which has no data
field), and `ErrorResp`, each carrying the generated id, the type tag, and
the payload the Go structs carry. -/
inductive OutMsg where
  | didDocRespMsg (id : String) (type : String) (didDoc : String)
  | connRespMsg (id : String) (type : String)
  | errorRespMsg (id : String) (type : String) (errMsg : String)
  deriving Repr, DecidableEq

/-- Side-effecting collaborator calls made by the registration handler,
recorded in order. -/
inductive CallEvent where
  | storeGetCall (key : String)
  | createConnectionCall (myDID : String) (doc : DIDDoc)
  | mediatorRegisterCall (connID : String)
  deriving Repr

/-- The external collaborators of the service, as oracles for one message:
the result of `vdriRegistry.Create`, of `tStore.Put`, the `uuid.New().String()`
value, `did.ParseDocument`, `didExchange.CreateConnection` and
`mediator.Register`. -/
structure Collab where
  vdrCreate : Except GoErr DIDDoc
  putResult : Except GoErr Unit
  freshID : String
  parseDocument : String → Except GoErr DIDDoc
  createConnection : String → DIDDoc → Except GoErr String
  mediatorRegister : String → Except GoErr Unit

/-- `handleDIDDocReq`: create a peer DID, persist `msg.ID() ↦ newDidDoc.ID`
in the transaction store, serialize the document, and return a `DIDDocResp`.
Returns the (possibly updated) store, the call trace, and the result. -/
def handleDIDDocReq (o : Collab) (st : Store) (msg : Msg) :
    Store × List CallEvent × Except GoErr OutMsg :=
  match o.vdrCreate with
  | .error e => (st, [], .error (wrapErr "create new peer did : " e))
  | .ok newDidDoc =>
    match o.putResult with
    | .error e => (st, [], .error (wrapErr "save txn data : " e))
    | .ok _ =>
      let st1 := storePut st msg.id newDidDoc.id
      match newDidDoc.jsonBytes with
      | .error e => (st1, [], .error (wrapErr "marshal did doc : " e))
      | .ok docBytes =>
        (st1, [], .ok (OutMsg.didDocRespMsg o.freshID didDocResp docBytes))

/-- `handleConnReq`: decode the payload, validate the parent thread id and the
presence of the DID document, parse it, look up the transaction, create the
connection, and register the route. The store is returned unchanged on every
path; collaborator calls are traced. -/
def handleConnReq (o : Collab) (st : Store) (msg : Msg) :
    Store × List CallEvent × Except GoErr OutMsg :=
  match msg.decodeConnReq with
  | .error e => (st, [], .error (wrapErr "parse didcomm message : " e))
  | .ok pMsg =>
    if msg.parentThreadID = "" then
      (st, [], .error (newErr "parent thread id mandatory"))
    else
      match pMsg.data with
      | none => (st, [], .error (newErr "did document mandatory"))
      | some d =>
        match d.didDoc with
        | none => (st, [], .error (newErr "did document mandatory"))
        | some docRaw =>
          match o.parseDocument docRaw with
          | .error e => (st, [], .error (wrapErr "parse did doc : " e))
          | .ok didDoc =>
            match storeGet st msg.parentThreadID with
            | .error e =>
              (st, [CallEvent.storeGetCall msg.parentThreadID],
                .error (wrapErr "fetch txn data : " e))
            | .ok txnID =>
              match o.createConnection txnID didDoc with
              | .error e =>
                (st, [CallEvent.storeGetCall msg.parentThreadID,
                      CallEvent.createConnectionCall txnID didDoc],
                  .error (wrapErr "create connection : " e))
              | .ok connID =>
                match o.mediatorRegister connID with
                | .error e =>
                  (st, [CallEvent.storeGetCall msg.parentThreadID,
                        CallEvent.createConnectionCall txnID didDoc,
                        CallEvent.mediatorRegisterCall connID],
                    .error (wrapErr "route registration : " e))
                | .ok _ =>
                  (st, [CallEvent.storeGetCall msg.parentThreadID,
                        CallEvent.createConnectionCall txnID didDoc,
                        CallEvent.mediatorRegisterCall connID],
                    .ok (OutMsg.connRespMsg o.freshID registerRouteResp))

/-- One iteration of `didCommMsgListener` for one inbound message: dispatch on
the declared type, convert a handler error into an `ErrorResp` whose type is
the mapped response type (unmapped types echo the request type), and reply
correlated to `msg.ID()`. Returns the store after the step, the call trace,
and the single reply `(correlationID, payload)` handed to
`messenger.ReplyTo`. -/
def listenerStep (o : Collab) (st : Store) (msg : Msg) :
    Store × List CallEvent × (String × OutMsg) :=
  let handled : Store × List CallEvent × Except GoErr OutMsg :=
    if msg.type = didDocReq then handleDIDDocReq o st msg
    else if msg.type = registerRouteReq then handleConnReq o st msg
    else (st, [], .error (newErr ("unsupported message service type : " ++ msg.type)))
  match handled with
  | (st1, events, .ok m) => (st1, events, (msg.id, m))
  | (st1, events, .error e) =>
    let msgType :=
      if msg.type = didDocReq then didDocResp
      else if msg.type = registerRouteReq then registerRouteResp
      else msg.type
    (st1, events,
      (msg.id, OutMsg.errorRespMsg o.freshID msgType (GoErr.msg e)))

/-- The transient-storage provider as seen by `getTxnStore`: the results of
`CreateStore(txnStoreName)` and `OpenStore(txnStoreName)`. -/
structure Provider where
  createStoreResult : Except GoErr Unit
  openStoreResult : Except GoErr Store

/-- `getTxnStore`: create the named store, tolerating only the
`storage.ErrDuplicateStore` condition, then open it. -/
def getTxnStore (prov : Provider) : Except GoErr Store :=
  match prov.createStoreResult with
  | .error e =>
    if e.isDuplicateStore then prov.openStoreResult else .error e
  | .ok _ => prov.openStoreResult

/-- `New`: Service construction, up to the collaborator wiring. Fails with the
wrapped store error when `getTxnStore` fails, then with the wrapped registrar
error when message-service registration fails. -/
def serviceNew (prov : Provider) (registrarResult : Except GoErr Unit) :
    Except GoErr Store :=
  match getTxnStore prov with
  | .error e => .error (wrapErr "store: " e)
  | .ok tStore =>
    match registrarResult with
    | .error e => .error (wrapErr "message service client: " e)
    | .ok _ => .ok tStore

end Adapter

namespace AdapterDB

open Adapter (GoErr wrapErr)

/-- A parsed DID as returned by `did.Parse`; opaque to the DAO. -/
structure ParsedDID where
  raw : String
  deriving Repr, DecidableEq

/-- A `relying_party` row as scanned by `FindByClientID`:
`(id, client_id, did)`. -/
structure RelyingPartyRow where
  id : Int
  clientID : String
  didStr : String
  deriving Repr, DecidableEq

/-- The `RelyingParty` record the DAO returns. -/
structure RelyingParty where
  id : Int
  clientID : String
  did : ParsedDID
  deriving Repr, DecidableEq

/-- The database and DID-parsing collaborators of the DAO: the result of the
`QueryRow(...).Scan(...)` for a given client id, and `did.Parse`. -/
structure DBEnv where
  queryRow : String → Except GoErr RelyingPartyRow
  didParse : String → Except GoErr ParsedDID

/-- `FindByClientID`: query the row, parse its stored DID string, and return
the assembled `RelyingParty`; each failure is wrapped with its context. -/
def FindByClientID (env : DBEnv) (id : String) : Except GoErr RelyingParty :=
  match env.queryRow id with
  | .error e =>
    .error (wrapErr "failed to query relying_party by client_id : " e)
  | .ok row =>
    match env.didParse row.didStr with
    | .error e =>
      .error (wrapErr ("failed to parse rpDID " ++ row.didStr ++ " : ") e)
    | .ok d => .ok { id := row.id, clientID := row.clientID, did := d }

end AdapterDB

namespace Adapter

/-! ## Helper lemmas -/

/-- Looking up a key just put finds the value of the most recent put. -/
theorem storeGet_put_same (st : Store) (k v : String) :
    storeGet (storePut st k v) k = .ok v := by
  simp [storeGet, storePut, List.find?]

/-- The registration handler returns the store unchanged on every path. -/
theorem handleConnReq_store_eq (o : Collab) (st : Store) (msg : Msg) :
    (handleConnReq o st msg).1 = st := by
  unfold handleConnReq
  repeat (first | rfl | split)

/-- The fixed message-type constants are pairwise distinct where dispatch
needs it. -/
theorem registerRouteReq_ne_didDocReq : registerRouteReq ≠ didDocReq := by
  decide

/-! ## Concrete instances used by witnesses -/

/-- A collaborator oracle on which every call succeeds. -/
def collabOK : Collab where
  vdrCreate := .ok ⟨"did:peer:77", .ok "serialized-doc"⟩
  putResult := .ok ()
  freshID := "uuid-1"
  parseDocument := fun b => .ok ⟨"did:their:9", .ok b⟩
  createConnection := fun _ _ => .ok "conn-42"
  mediatorRegister := fun _ => .ok ()

/-- A concrete document request with id `"r1"`. -/
def msgDocR1 : Msg where
  type := didDocReq
  id := "r1"
  parentThreadID := ""
  decodeConnReq := .ok ⟨none⟩

/-! ## Claims -/

/-- C1: for every document request on which identity creation, the store put
and serialization all succeed, the handler returns exactly one `DIDDocResp`
whose type is the fixed `didDocResp` tag and whose payload is the serialized
bytes of the newly created document, and afterwards the transaction store
holds the new document's id under the request message's id. -/
theorem diddoc_success_resp_and_txn (o : Collab) (st : Store) (msg : Msg)
    (doc : DIDDoc) (docBytes : String)
    (hv : o.vdrCreate = .ok doc) (hp : o.putResult = .ok ())
    (hj : doc.jsonBytes = .ok docBytes) :
    handleDIDDocReq o st msg =
      (storePut st msg.id doc.id, [],
        .ok (OutMsg.didDocRespMsg o.freshID didDocResp docBytes)) ∧
    storeGet (handleDIDDocReq o st msg).1 msg.id = .ok doc.id := by
  have h : handleDIDDocReq o st msg =
      (storePut st msg.id doc.id, [],
        .ok (OutMsg.didDocRespMsg o.freshID didDocResp docBytes)) := by
    simp only [handleDIDDocReq, hv, hp, hj]
  exact ⟨h, by rw [h]; exact storeGet_put_same st msg.id doc.id⟩

/-- Witness for C1 at a concrete request and oracle. -/
theorem diddoc_success_resp_and_txn_witness :
    handleDIDDocReq collabOK [] msgDocR1 =
      (storePut [] msgDocR1.id "did:peer:77", [],
        .ok (OutMsg.didDocRespMsg collabOK.freshID didDocResp "serialized-doc")) ∧
    storeGet (handleDIDDocReq collabOK [] msgDocR1).1 msgDocR1.id =
      .ok "did:peer:77" :=
  diddoc_success_resp_and_txn collabOK [] msgDocR1
    ⟨"did:peer:77", .ok "serialized-doc"⟩ "serialized-doc" rfl rfl rfl

/-- C7: the transaction entry is committed before document serialization is
attempted: when serialization fails after the put succeeded, the handler
returns the wrapped marshal error, yet the output store still holds the new
document's id under the message id (no rollback). -/
theorem diddoc_no_rollback_on_marshal_failure (o : Collab) (st : Store)
    (msg : Msg) (doc : DIDDoc) (e : GoErr)
    (hv : o.vdrCreate = .ok doc) (hp : o.putResult = .ok ())
    (hj : doc.jsonBytes = .error e) :
    handleDIDDocReq o st msg =
      (storePut st msg.id doc.id, [],
        .error (wrapErr "marshal did doc : " e)) ∧
    storeGet (handleDIDDocReq o st msg).1 msg.id = .ok doc.id := by
  have h : handleDIDDocReq o st msg =
      (storePut st msg.id doc.id, [],
        .error (wrapErr "marshal did doc : " e)) := by
    simp only [handleDIDDocReq, hv, hp, hj]
  exact ⟨h, by rw [h]; exact storeGet_put_same st msg.id doc.id⟩

/-- Witness for C7 at a concrete request and an oracle whose document does not
serialize. -/
theorem diddoc_no_rollback_on_marshal_failure_witness :
    handleDIDDocReq
        { collabOK with vdrCreate := .ok ⟨"did:peer:77", .error (newErr "boom")⟩ }
        [] msgDocR1 =
      (storePut [] msgDocR1.id "did:peer:77", [],
        .error (wrapErr "marshal did doc : " (newErr "boom"))) ∧
    storeGet (handleDIDDocReq
        { collabOK with vdrCreate := .ok ⟨"did:peer:77", .error (newErr "boom")⟩ }
        [] msgDocR1).1 msgDocR1.id = .ok "did:peer:77" :=
  diddoc_no_rollback_on_marshal_failure
    { collabOK with vdrCreate := .ok ⟨"did:peer:77", .error (newErr "boom")⟩ }
    [] msgDocR1 ⟨"did:peer:77", .error (newErr "boom")⟩ (newErr "boom") rfl rfl rfl

/-- C9: the registration handler never writes the transaction store: on every
input (success or failure) the output store equals the input store, and
repeating the same registration request on the resulting store yields the
identical result. -/
theorem connreq_store_frame (o : Collab) (st : Store) (msg : Msg) :
    (handleConnReq o st msg).1 = st ∧
    handleConnReq o ((handleConnReq o st msg).1) msg = handleConnReq o st msg := by
  refine ⟨handleConnReq_store_eq o st msg, ?_⟩
  rw [handleConnReq_store_eq o st msg]

end Adapter

namespace Adapter

/-- `storeGet` only fails with the NotFound-class error. -/
theorem storeGet_error_isNotFound (st : Store) (k : String) (e : GoErr)
    (h : storeGet st k = .error e) : e.isNotFound = true := by
  unfold storeGet at h
  cases hf : List.find? (fun kv => kv.1 == k) st with
  | none =>
    rw [hf] at h
    simp only [Except.error.injEq] at h
    rw [← h]
  | some kv =>
    rw [hf] at h
    simp at h

/-- A registration request whose payload does not decode. -/
def msgConnBadDecode : Msg :=
  ⟨registerRouteReq, "m1", "r1", .error (newErr "bad json")⟩

/-- A registration request with an empty parent thread id. -/
def msgConnNoPtid : Msg :=
  ⟨registerRouteReq, "m2", "", .ok ⟨some ⟨some "docbytes"⟩⟩⟩

/-- A registration request whose payload has no DID document. -/
def msgConnNoDoc : Msg :=
  ⟨registerRouteReq, "m3", "r1", .ok ⟨none⟩⟩

/-- A well-formed registration request with parent thread id `"r1"`. -/
def msgConnGood : Msg :=
  ⟨registerRouteReq, "m4", "r1", .ok ⟨some ⟨some "docbytes"⟩⟩⟩

/-- A collaborator oracle whose DID-document parsing fails. -/
def collabParseFail : Collab :=
  { collabOK with parseDocument := fun _ => .error (newErr "parse fail") }

/-- The NotFound error `storeGet` raises on an absent key. -/
def errNotFound : GoErr := { msg := "data not found", isNotFound := true }

/-- C3: registration-request validation runs in the fixed order
decode, non-empty parent thread id, document presence, document parse;
the first failure determines the error, and in each failing case the store is
untouched and the call trace is empty, so no store lookup, connection call or
mediator call runs. -/
theorem connreq_validation_order (o : Collab) (st : Store) (msg : Msg) :
    (∀ e, msg.decodeConnReq = .error e →
      handleConnReq o st msg =
        (st, [], .error (wrapErr "parse didcomm message : " e))) ∧
    (∀ p, msg.decodeConnReq = .ok p → msg.parentThreadID = "" →
      handleConnReq o st msg =
        (st, [], .error (newErr "parent thread id mandatory"))) ∧
    (∀ p, msg.decodeConnReq = .ok p → msg.parentThreadID ≠ "" →
      (p.data = none ∨ ∃ d, p.data = some d ∧ d.didDoc = none) →
      handleConnReq o st msg =
        (st, [], .error (newErr "did document mandatory"))) ∧
    (∀ p d docRaw e, msg.decodeConnReq = .ok p → msg.parentThreadID ≠ "" →
      p.data = some d → d.didDoc = some docRaw →
      o.parseDocument docRaw = .error e →
      handleConnReq o st msg =
        (st, [], .error (wrapErr "parse did doc : " e))) := by
  refine ⟨?_, ?_, ?_, ?_⟩
  · intro e he
    simp [handleConnReq, he]
  · intro p hp hpt
    simp [handleConnReq, hp, hpt]
  · intro p hp hpt hd
    rcases hd with h | ⟨d, hd1, hd2⟩
    · simp [handleConnReq, hp, hpt, h]
    · simp [handleConnReq, hp, hpt, hd1, hd2]
  · intro p d docRaw e hp hpt hd1 hd2 hparse
    simp [handleConnReq, hp, hpt, hd1, hd2, hparse]

/-- Witness for C3: each of the four validation failures at a concrete
request. -/
theorem connreq_validation_order_witness :
    handleConnReq collabOK [] msgConnBadDecode =
      ([], [], .error (wrapErr "parse didcomm message : " (newErr "bad json"))) ∧
    handleConnReq collabOK [] msgConnNoPtid =
      ([], [], .error (newErr "parent thread id mandatory")) ∧
    handleConnReq collabOK [] msgConnNoDoc =
      ([], [], .error (newErr "did document mandatory")) ∧
    handleConnReq collabParseFail [] msgConnGood =
      ([], [], .error (wrapErr "parse did doc : " (newErr "parse fail"))) :=
  ⟨(connreq_validation_order collabOK [] msgConnBadDecode).1
      (newErr "bad json") rfl,
   (connreq_validation_order collabOK [] msgConnNoPtid).2.1
      ⟨some ⟨some "docbytes"⟩⟩ rfl rfl,
   (connreq_validation_order collabOK [] msgConnNoDoc).2.2.1
      ⟨none⟩ rfl (by decide) (Or.inl rfl),
   (connreq_validation_order collabParseFail [] msgConnGood).2.2.2
      ⟨some ⟨some "docbytes"⟩⟩ ⟨some "docbytes"⟩ "docbytes" (newErr "parse fail")
      rfl (by decide) rfl rfl rfl⟩

/-- C4: a registration request that passes validation but whose parent thread
id has no transaction entry fails with the wrapped NotFound-class store error;
the trace shows the store lookup and no connection or mediator call. -/
theorem connreq_txn_not_found (o : Collab) (st : Store) (msg : Msg)
    (p : ConnReq) (d : ConnReqData) (docRaw : String) (doc : DIDDoc) (e : GoErr)
    (hdec : msg.decodeConnReq = .ok p) (hpt : msg.parentThreadID ≠ "")
    (hdata : p.data = some d) (hdoc : d.didDoc = some docRaw)
    (hparse : o.parseDocument docRaw = .ok doc)
    (hget : storeGet st msg.parentThreadID = .error e) :
    handleConnReq o st msg =
      (st, [CallEvent.storeGetCall msg.parentThreadID],
        .error (wrapErr "fetch txn data : " e)) ∧
    (wrapErr "fetch txn data : " e).isNotFound = true ∧
    (∀ myDID dc,
      CallEvent.createConnectionCall myDID dc ∉ (handleConnReq o st msg).2.1) ∧
    (∀ cid,
      CallEvent.mediatorRegisterCall cid ∉ (handleConnReq o st msg).2.1) := by
  have h : handleConnReq o st msg =
      (st, [CallEvent.storeGetCall msg.parentThreadID],
        .error (wrapErr "fetch txn data : " e)) := by
    simp [handleConnReq, hdec, hpt, hdata, hdoc, hparse, hget]
  have hnf : e.isNotFound = true :=
    storeGet_error_isNotFound st msg.parentThreadID e hget
  refine ⟨h, ?_, ?_, ?_⟩
  · simpa [wrapErr] using hnf
  · intro myDID dc
    rw [h]
    simp
  · intro cid
    rw [h]
    simp

/-- Witness for C4: a valid registration request against an empty store. -/
theorem connreq_txn_not_found_witness :
    handleConnReq collabOK [] msgConnGood =
      ([], [CallEvent.storeGetCall msgConnGood.parentThreadID],
        .error (wrapErr "fetch txn data : " errNotFound)) ∧
    (wrapErr "fetch txn data : " errNotFound).isNotFound = true := by
  have h := connreq_txn_not_found collabOK [] msgConnGood
    ⟨some ⟨some "docbytes"⟩⟩ ⟨some "docbytes"⟩ "docbytes"
    ⟨"did:their:9", .ok "docbytes"⟩ errNotFound rfl (by decide) rfl rfl rfl rfl
  exact ⟨h.1, h.2.1⟩

/-- A message with an unregistered type. -/
def msgUnknown : Msg :=
  ⟨"https://example.com/other-type", "m9", "", .ok ⟨none⟩⟩

/-- C6: an inbound message of an unregistered type still produces exactly one
reply correlated to the inbound id: an error response tagged with the original
message type, whose message names the unsupported type. -/
theorem dispatcher_unsupported_type (o : Collab) (st : Store) (msg : Msg)
    (h1 : msg.type ≠ didDocReq) (h2 : msg.type ≠ registerRouteReq) :
    listenerStep o st msg =
      (st, [], (msg.id, OutMsg.errorRespMsg o.freshID msg.type
        ("unsupported message service type : " ++ msg.type))) ∧
    ∃ pre suf, "unsupported message service type : " ++ msg.type =
      pre ++ msg.type ++ suf := by
  constructor
  · simp [listenerStep, h1, h2, newErr]
  · exact ⟨"unsupported message service type : ", "", by simp⟩

/-- Witness for C6 at a concrete unregistered type. -/
theorem dispatcher_unsupported_type_witness :
    listenerStep collabOK [] msgUnknown =
      ([], [], (msgUnknown.id, OutMsg.errorRespMsg collabOK.freshID msgUnknown.type
        ("unsupported message service type : " ++ msgUnknown.type))) ∧
    ∃ pre suf, "unsupported message service type : " ++ msgUnknown.type =
      pre ++ msgUnknown.type ++ suf :=
  dispatcher_unsupported_type collabOK [] msgUnknown (by decide) (by decide)

end Adapter

namespace Adapter

/-- A collaborator oracle whose connection creation fails. -/
def collabConnFail : Collab :=
  { collabOK with createConnection := fun _ _ => .error (newErr "conn down") }

/-- C5: when the Connection component call fails with error `e`, the
dispatcher replies with an error response tagged with the
registration-response type (not the request type) whose message contains
`e`'s text, and the mediator is never called. -/
theorem dispatcher_conn_failure_reply (o : Collab) (st : Store) (msg : Msg)
    (p : ConnReq) (d : ConnReqData) (docRaw txnID : String) (doc : DIDDoc)
    (e : GoErr)
    (htype : msg.type = registerRouteReq)
    (hdec : msg.decodeConnReq = .ok p) (hpt : msg.parentThreadID ≠ "")
    (hdata : p.data = some d) (hdoc : d.didDoc = some docRaw)
    (hparse : o.parseDocument docRaw = .ok doc)
    (hget : storeGet st msg.parentThreadID = .ok txnID)
    (hconn : o.createConnection txnID doc = .error e) :
    listenerStep o st msg =
      (st, [CallEvent.storeGetCall msg.parentThreadID,
            CallEvent.createConnectionCall txnID doc],
        (msg.id, OutMsg.errorRespMsg o.freshID registerRouteResp
          ("create connection : " ++ e.msg))) ∧
    (∃ pre suf, "create connection : " ++ e.msg = pre ++ e.msg ++ suf) ∧
    (∀ cid, CallEvent.mediatorRegisterCall cid ∉ (listenerStep o st msg).2.1) := by
  have h : listenerStep o st msg =
      (st, [CallEvent.storeGetCall msg.parentThreadID,
            CallEvent.createConnectionCall txnID doc],
        (msg.id, OutMsg.errorRespMsg o.freshID registerRouteResp
          ("create connection : " ++ e.msg))) := by
    simp [listenerStep, handleConnReq, htype, registerRouteReq_ne_didDocReq,
      hdec, hpt, hdata, hdoc, hparse, hget, hconn, wrapErr]
  refine ⟨h, ⟨"create connection : ", "", by simp⟩, ?_⟩
  intro cid
  rw [h]
  simp

/-- Witness for C5: a valid registration request whose connection creation
fails, against a store holding its parent transaction. -/
theorem dispatcher_conn_failure_reply_witness :
    listenerStep collabConnFail (storePut [] "r1" "did:peer:77") msgConnGood =
      (storePut [] "r1" "did:peer:77",
        [CallEvent.storeGetCall msgConnGood.parentThreadID,
         CallEvent.createConnectionCall "did:peer:77" ⟨"did:their:9", .ok "docbytes"⟩],
        (msgConnGood.id, OutMsg.errorRespMsg collabConnFail.freshID registerRouteResp
          ("create connection : " ++ (newErr "conn down").msg))) ∧
    (∃ pre suf, "create connection : " ++ (newErr "conn down").msg =
      pre ++ (newErr "conn down").msg ++ suf) := by
  have h := dispatcher_conn_failure_reply collabConnFail
    (storePut [] "r1" "did:peer:77") msgConnGood
    ⟨some ⟨some "docbytes"⟩⟩ ⟨some "docbytes"⟩ "docbytes" "did:peer:77"
    ⟨"did:their:9", .ok "docbytes"⟩ (newErr "conn down")
    rfl rfl (by decide) rfl rfl rfl rfl rfl
  exact ⟨h.1, h.2.1⟩

/-- The duplicate-store error of the storage provider. -/
def errDup : GoErr := { msg := "store already exists", isDuplicateStore := true }

/-- A provider whose store already exists. -/
def provDup : Provider := ⟨.error errDup, .ok []⟩

/-- A provider whose store creation fails for another reason. -/
def provCreateFail : Provider := ⟨.error (newErr "disk full"), .ok []⟩

/-- A provider whose store opens fails. -/
def provOpenFail : Provider := ⟨.ok (), .error (newErr "open failed")⟩

/-- C8: transaction-store setup swallows only the "store already exists"
creation error and then opens and returns the store; any other creation
error, and any open error, is surfaced and makes Service construction fail
with the wrapped store error. -/
theorem txn_store_setup_idempotent (prov : Provider) (reg : Except GoErr Unit) :
    (∀ e, prov.createStoreResult = .error e → e.isDuplicateStore = true →
      getTxnStore prov = prov.openStoreResult) ∧
    (∀ e, prov.createStoreResult = .error e → e.isDuplicateStore = false →
      getTxnStore prov = .error e ∧
      serviceNew prov reg = .error (wrapErr "store: " e)) ∧
    (∀ e, prov.createStoreResult = .ok () → prov.openStoreResult = .error e →
      getTxnStore prov = .error e ∧
      serviceNew prov reg = .error (wrapErr "store: " e)) ∧
    (∀ e eo, prov.createStoreResult = .error e → e.isDuplicateStore = true →
      prov.openStoreResult = .error eo →
      serviceNew prov reg = .error (wrapErr "store: " eo)) := by
  refine ⟨?_, ?_, ?_, ?_⟩
  · intro e h1 h2
    simp [getTxnStore, h1, h2]
  · intro e h1 h2
    constructor
    · simp [getTxnStore, h1, h2]
    · simp [serviceNew, getTxnStore, h1, h2]
  · intro e h1 h2
    constructor
    · simp [getTxnStore, h1, h2]
    · simp [serviceNew, getTxnStore, h1, h2]
  · intro e eo h1 h2 h3
    simp [serviceNew, getTxnStore, h1, h2, h3]

/-- Witness for C8: the duplicate-store condition is swallowed, a different
creation error and an open error each surface through construction. -/
theorem txn_store_setup_idempotent_witness :
    getTxnStore provDup = provDup.openStoreResult ∧
    serviceNew provCreateFail (.ok ()) = .error (wrapErr "store: " (newErr "disk full")) ∧
    serviceNew provOpenFail (.ok ()) = .error (wrapErr "store: " (newErr "open failed")) := by
  have h1 := txn_store_setup_idempotent provDup (.ok ())
  have h2 := txn_store_setup_idempotent provCreateFail (.ok ())
  have h3 := txn_store_setup_idempotent provOpenFail (.ok ())
  exact ⟨h1.1 errDup rfl rfl,
    (h2.2.1 (newErr "disk full") rfl rfl).2,
    (h3.2.2.1 (newErr "open failed") rfl rfl).2⟩

end Adapter

namespace AdapterDB

open Adapter (newErr wrapErr)

/-- C10: `FindByClientID` returns a `RelyingParty` only when the stored DID
string of the matching row parses; on a parse failure it returns the wrapped
parse error and no record, and on success the returned record's DID is
exactly the parse of the stored string. -/
theorem find_by_client_id_parse (env : DBEnv) (id : String) :
    (∀ rp, FindByClientID env id = .ok rp →
      ∃ row, env.queryRow id = .ok row ∧
        env.didParse row.didStr = .ok rp.did ∧
        rp.id = row.id ∧ rp.clientID = row.clientID) ∧
    (∀ row e, env.queryRow id = .ok row → env.didParse row.didStr = .error e →
      FindByClientID env id =
        .error (wrapErr ("failed to parse rpDID " ++ row.didStr ++ " : ") e)) := by
  constructor
  · intro rp h
    cases hq : env.queryRow id with
    | error e => simp [FindByClientID, hq] at h
    | ok row =>
      cases hp : env.didParse row.didStr with
      | error e => simp [FindByClientID, hq, hp] at h
      | ok dd =>
        simp only [FindByClientID, hq, hp, Except.ok.injEq] at h
        subst h
        exact ⟨row, rfl, hp, rfl, rfl⟩
  · intro row e hq hp
    simp [FindByClientID, hq, hp]

/-- A concrete `relying_party` row. -/
def rowGood : RelyingPartyRow := ⟨1, "client-1", "did:ex:abc"⟩

/-- A database environment whose stored DID parses. -/
def dbEnvOK : DBEnv := ⟨fun _ => .ok rowGood, fun s => .ok ⟨s⟩⟩

/-- A database environment whose stored DID does not parse. -/
def dbEnvBadDID : DBEnv := ⟨fun _ => .ok rowGood, fun _ => .error (newErr "invalid did")⟩

/-- Witness for C10: a parsing success and a parsing failure at a concrete
row. -/
theorem find_by_client_id_parse_witness :
    (∃ row, dbEnvOK.queryRow "client-1" = .ok row ∧
      dbEnvOK.didParse row.didStr = .ok (ParsedDID.mk "did:ex:abc") ∧
      (1 : Int) = row.id ∧ "client-1" = row.clientID) ∧
    FindByClientID dbEnvBadDID "client-1" =
      .error (wrapErr ("failed to parse rpDID " ++ rowGood.didStr ++ " : ")
        (newErr "invalid did")) := by
  have h1 := find_by_client_id_parse dbEnvOK "client-1"
  have h2 := find_by_client_id_parse dbEnvBadDID "client-1"
  exact ⟨h1.1 ⟨1, "client-1", ⟨"did:ex:abc"⟩⟩ rfl,
    h2.2 rowGood (newErr "invalid did") rfl rfl⟩

end AdapterDB

namespace Adapter

/-- C2: round trip with last-write-wins. After two successful document
requests with the same id (the second committing `docB.id`), the store holds
`docB.id` under that id, and a successful registration request whose parent
thread id is that id yields a `ConnResp` with the registration-response tag
and no payload, with the Connection component called with `myDID` equal to the
stored value `docB.id` — the value of the most recent put. -/
theorem round_trip_last_write_wins
    (oa ob oc : Collab) (st : Store) (msg1 msg1b msg2 : Msg)
    (docA docB theirDoc : DIDDoc) (bytesA bytesB : String)
    (p : ConnReq) (d : ConnReqData) (connID : String)
    (h1type : msg1.type = didDocReq) (h1btype : msg1b.type = didDocReq)
    (h2type : msg2.type = registerRouteReq)
    (hsameid : msg1b.id = msg1.id) (h2pt : msg2.parentThreadID = msg1.id)
    (hne : msg1.id ≠ "")
    (hA : oa.vdrCreate = .ok docA) (hAp : oa.putResult = .ok ())
    (hAj : docA.jsonBytes = .ok bytesA)
    (hB : ob.vdrCreate = .ok docB) (hBp : ob.putResult = .ok ())
    (hBj : docB.jsonBytes = .ok bytesB)
    (hdec : msg2.decodeConnReq = .ok p) (hdata : p.data = some d)
    (hdoc : d.didDoc = some bytesB)
    (hparse : oc.parseDocument bytesB = .ok theirDoc)
    (hconn : oc.createConnection docB.id theirDoc = .ok connID)
    (hmed : oc.mediatorRegister connID = .ok ()) :
    storeGet (listenerStep ob (listenerStep oa st msg1).1 msg1b).1 msg1.id =
      .ok docB.id ∧
    listenerStep oc (listenerStep ob (listenerStep oa st msg1).1 msg1b).1 msg2 =
      ((listenerStep ob (listenerStep oa st msg1).1 msg1b).1,
        [CallEvent.storeGetCall msg1.id,
         CallEvent.createConnectionCall docB.id theirDoc,
         CallEvent.mediatorRegisterCall connID],
        (msg2.id, OutMsg.connRespMsg oc.freshID registerRouteResp)) := by
  have hst1 : (listenerStep oa st msg1).1 = storePut st msg1.id docA.id := by
    simp [listenerStep, h1type, handleDIDDocReq, hA, hAp, hAj]
  have hst2 : (listenerStep ob (listenerStep oa st msg1).1 msg1b).1 =
      storePut (storePut st msg1.id docA.id) msg1.id docB.id := by
    rw [hst1]
    simp [listenerStep, h1btype, handleDIDDocReq, hB, hBp, hBj, hsameid]
  have hget : storeGet (listenerStep ob (listenerStep oa st msg1).1 msg1b).1
      msg1.id = .ok docB.id := by
    rw [hst2]
    exact storeGet_put_same _ _ _
  refine ⟨hget, ?_⟩
  rw [hst2]
  have hpt : msg2.parentThreadID ≠ "" := by
    rw [h2pt]
    exact hne
  have hg3 : storeGet (storePut (storePut st msg1.id docA.id) msg1.id docB.id)
      msg1.id = .ok docB.id := storeGet_put_same _ _ _
  simp [listenerStep, handleConnReq, h2type, registerRouteReq_ne_didDocReq,
    hdec, hpt, hne, hdata, hdoc, hparse, h2pt, hg3, hconn, hmed]

/-- Oracle for the first document request: identity `did:peer:A`. -/
def oaW : Collab := { collabOK with
  vdrCreate := .ok ⟨"did:peer:A", .ok "bytesA"⟩, freshID := "uuid-a" }

/-- Oracle for the second document request: identity `did:peer:B`. -/
def obW : Collab := { collabOK with
  vdrCreate := .ok ⟨"did:peer:B", .ok "bytesB"⟩, freshID := "uuid-b" }

/-- Oracle for the registration request. -/
def ocW : Collab := { collabOK with freshID := "uuid-c" }

/-- A registration request against parent thread id `"r1"`, carrying the
document bytes returned by the second document request. -/
def msgConnB : Msg :=
  ⟨registerRouteReq, "m5", "r1", .ok ⟨some ⟨some "bytesB"⟩⟩⟩

/-- Witness for C2: two document requests with id `"r1"` followed by a
registration request against `"r1"` use the most recently stored identity
`did:peer:B`. -/
theorem round_trip_last_write_wins_witness :
    storeGet (listenerStep obW (listenerStep oaW [] msgDocR1).1 msgDocR1).1 "r1" =
      .ok "did:peer:B" ∧
    listenerStep ocW (listenerStep obW (listenerStep oaW [] msgDocR1).1 msgDocR1).1
        msgConnB =
      ((listenerStep obW (listenerStep oaW [] msgDocR1).1 msgDocR1).1,
        [CallEvent.storeGetCall "r1",
         CallEvent.createConnectionCall "did:peer:B" ⟨"did:their:9", .ok "bytesB"⟩,
         CallEvent.mediatorRegisterCall "conn-42"],
        ("m5", OutMsg.connRespMsg "uuid-c" registerRouteResp)) :=
  round_trip_last_write_wins oaW obW ocW [] msgDocR1 msgDocR1 msgConnB
    ⟨"did:peer:A", .ok "bytesA"⟩ ⟨"did:peer:B", .ok "bytesB"⟩
    ⟨"did:their:9", .ok "bytesB"⟩ "bytesA" "bytesB"
    ⟨some ⟨some "bytesB"⟩⟩ ⟨some "bytesB"⟩ "conn-42"
    rfl rfl rfl rfl rfl (by decide) rfl rfl rfl rfl rfl rfl rfl rfl rfl rfl rfl rfl

end Adapter
